import Mathlib

/-!
Verification of the CECOS-Connect server's authentication and authorization
behavior against its specification.

The definitions below are a shallow embedding of the relevant TypeScript
source files:

* `src/server/routes.ts` — the Express route table, the `authenticateToken`
  middleware and the `authorize` role-whitelist middleware, and the handlers
  for privilege grant, user update, registration and student deletion.
* `src/server/storage.ts` — the `DatabaseStorage` operations
  `getUserPrivileges`, `grantPrivilege`, `revokePrivilege`, `createUser`,
  `updateUser`, `deleteStudent`.
* `src/shared/schema.ts` — the row shapes of the `users`, `students` and
  `user_privileges` tables (including the `defaultNow()` column default on
  `granted_at`).

Database tables are modelled as lists of rows together with a serial-id
counter; timestamps are natural numbers; the JWT library, which is an
external dependency, is modelled from the specification of the Identity
Token Codec.
-/

namespace Cecos

/-- Payload carried by a signed bearer token: the fields `jwt.sign` embeds in
`routes.ts` (`id`, `username`, `role`) plus the expiry timestamp the library
adds for `expiresIn`. -/
structure TokenPayload where
  id : Nat
  username : String
  role : String
  exp : Nat
  deriving DecidableEq, Repr

/-- A bearer token as the verifier sees it: either a string that does not
parse as a JWT at all, or a parsed payload carried with a signature value. -/
inductive Token where
  | malformed : Token
  | signed : TokenPayload → Nat → Token
  deriving DecidableEq, Repr

/-- Distinguishable verification failures of the Identity Token Codec. -/
inductive VerifyError where
  | tokenMalformed : VerifyError
  | tokenSignatureInvalid : VerifyError
  | tokenExpired : VerifyError
  deriving DecidableEq, Repr

/-- Modelled from the spec: `verify(token, secretKey)` of the Identity Token
Codec (the `jwt.verify` library call used by `authenticateToken` in
`routes.ts`; the library itself is not part of the repository source). It
fails with `tokenMalformed` when the structure cannot be parsed,
`tokenSignatureInvalid` when the signature check against the keyed mac
fails, and `tokenExpired` when the current time has reached the embedded
expiry. The signature function `mac` is a parameter of the model. -/
def jwtVerify (mac : Nat → TokenPayload → Nat) (key : Nat) (now : Nat) :
    Token → Except VerifyError TokenPayload
  | Token.malformed => Except.error VerifyError.tokenMalformed
  | Token.signed p sig =>
      if sig ≠ mac key p then Except.error VerifyError.tokenSignatureInvalid
      else if p.exp ≤ now then Except.error VerifyError.tokenExpired
      else Except.ok p

/-- A concrete signature function usable to build valid tokens in examples. -/
def macDemo (key : Nat) (p : TokenPayload) : Nat :=
  key + 2 * p.id + 3 * p.exp

/-- Outcome of the `authenticateToken` middleware in `routes.ts`: either a
rejected response (status code and message) or the request proceeds with
`req.user` set to the decoded payload. -/
inductive AuthOutcome where
  | reject : Nat → String → AuthOutcome
  | proceed : TokenPayload → AuthOutcome
  deriving DecidableEq, Repr

/-- The `authenticateToken` middleware (`routes.ts` lines 14-27): a missing
token yields 401 "Access token required"; any `jwt.verify` error yields 403
"Invalid or expired token"; otherwise the request proceeds with the decoded
user. -/
def authenticateToken (mac : Nat → TokenPayload → Nat) (key : Nat) (now : Nat) :
    Option Token → AuthOutcome
  | none => AuthOutcome.reject 401 "Access token required"
  | some t =>
      match jwtVerify mac key now t with
      | Except.error _ => AuthOutcome.reject 403 "Invalid or expired token"
      | Except.ok p => AuthOutcome.proceed p

/-- The `authorize(roles)` middleware (`routes.ts` lines 30-37): the request
proceeds exactly when `req.user` is set and its role is in the whitelist;
otherwise 403 "Insufficient permissions". Note that it consults only the
role string, never the privilege store. -/
def authorizeCheck (roles : List String) (user : Option TokenPayload) : Bool :=
  match user with
  | none => false
  | some u => roles.contains u.role

/-- One row of the `user_privileges` table (`schema.ts` lines 204-211). -/
structure UserPrivilege where
  id : Nat
  userId : Nat
  permission : String
  resource : String
  grantedBy : Nat
  grantedAt : Nat
  deriving DecidableEq, Repr

/-- Insert shape for a privilege row as built by the grant route handler
(`routes.ts` lines 516-524): `userId` from the URL parameter and
`permission`, `resource`, `grantedBy` from the request body. -/
structure InsertUserPrivilege where
  userId : Nat
  permission : String
  resource : String
  grantedBy : Nat
  deriving DecidableEq, Repr

/-- State of the `user_privileges` table: its rows plus the serial id
counter. -/
structure PrivState where
  rows : List UserPrivilege
  nextId : Nat
  deriving DecidableEq, Repr

/-- Whether a privilege row matches a `(userId, permission, resource)`
triple, the comparison used by `revokePrivilege` and by the spec's Decision
Engine (exact equality on opaque strings). -/
def privMatches (uid : Nat) (p r : String) (g : UserPrivilege) : Bool :=
  uid = g.userId && p = g.permission && r = g.resource

/-- `DatabaseStorage.getUserPrivileges` (`storage.ts` lines 507-509): all
rows whose `userId` equals the argument. -/
def getUserPrivileges (s : PrivState) (uid : Nat) : List UserPrivilege :=
  s.rows.filter (fun g => g.userId = uid)

/-- Whether the Privilege Store currently holds a grant for the exact
`(userId, permission, resource)` triple, i.e. whether the spec's
`grantAllowed` condition holds of the store state. -/
def grantExists (s : PrivState) (uid : Nat) (p r : String) : Bool :=
  (getUserPrivileges s uid).any (fun g => p = g.permission && r = g.resource)

/-- `DatabaseStorage.grantPrivilege` (`storage.ts` lines 511-514): inserts a
new row and returns it. The `id` is the serial counter and `grantedAt` is
the database default `now()` (`schema.ts` line 210); `grantedBy` is
whatever the insert value carries. Does not deduplicate. -/
def grantPrivilege (s : PrivState) (ins : InsertUserPrivilege) (now : Nat) :
    UserPrivilege × PrivState :=
  let row : UserPrivilege :=
    { id := s.nextId, userId := ins.userId, permission := ins.permission,
      resource := ins.resource, grantedBy := ins.grantedBy, grantedAt := now }
  (row, { rows := s.rows ++ [row], nextId := s.nextId + 1 })

/-- `DatabaseStorage.revokePrivilege` (`storage.ts` lines 516-527): deletes
every row matching the `(userId, permission, resource)` triple and returns
whether the deleted row count was positive. -/
def revokePrivilege (s : PrivState) (uid : Nat) (p r : String) :
    Bool × PrivState :=
  let removed := s.rows.filter (fun g => privMatches uid p r g)
  (removed.length > 0,
   { s with rows := s.rows.filter (fun g => !(privMatches uid p r g)) })

/-- A registered Express route (`registerRoutes` in `routes.ts`): method,
path pattern, whether `authenticateToken` is installed, and the role
whitelist when an `authorize([...])` middleware is installed. -/
structure Route where
  method : String
  path : String
  requiresAuth : Bool
  roleAllow : Option (List String)
  deriving DecidableEq, Repr

/-- The full route table registered in `registerRoutes` (`routes.ts`
lines 41-531), in registration order, with each route's middleware chain
transcribed from the source. -/
def routesTable : List Route :=
  [ ⟨"POST", "/api/auth/login", false, none⟩,
    ⟨"POST", "/api/auth/register", false, none⟩,
    ⟨"GET", "/api/dashboard/stats", true, none⟩,
    ⟨"GET", "/api/students", true, some ["admin", "epr_admin", "faculty"]⟩,
    ⟨"GET", "/api/students/detailed", true, some ["admin", "epr_admin", "faculty"]⟩,
    ⟨"GET", "/api/student-requests", true, some ["admin", "epr_admin", "faculty"]⟩,
    ⟨"POST", "/api/student-requests/:id/review", true, some ["admin", "epr_admin", "faculty"]⟩,
    ⟨"GET", "/api/students/next-ccl-id", true, some ["admin", "epr_admin"]⟩,
    ⟨"POST", "/api/students", true, some ["admin", "epr_admin"]⟩,
    ⟨"GET", "/api/students/:id", true, none⟩,
    ⟨"POST", "/api/students/:id/suspend", true, some ["admin", "epr_admin"]⟩,
    ⟨"PUT", "/api/students/:id", true, some ["admin", "epr_admin"]⟩,
    ⟨"PUT", "/api/users/:id", true, some ["admin", "epr_admin"]⟩,
    ⟨"DELETE", "/api/students/:id", true, some ["admin", "epr_admin"]⟩,
    ⟨"GET", "/api/attendance", true, none⟩,
    ⟨"POST", "/api/attendance", true, some ["faculty", "admin", "epr_admin"]⟩,
    ⟨"GET", "/api/attendance/stats/:studentId", true, none⟩,
    ⟨"GET", "/api/exams", true, none⟩,
    ⟨"POST", "/api/exams", true, some ["faculty", "admin", "epr_admin"]⟩,
    ⟨"PUT", "/api/exams/:id", true, some ["faculty", "admin", "epr_admin"]⟩,
    ⟨"GET", "/api/submissions", true, none⟩,
    ⟨"POST", "/api/submissions", true, none⟩,
    ⟨"PUT", "/api/submissions/:id/grade", true, some ["faculty", "admin", "epr_admin"]⟩,
    ⟨"GET", "/api/admissions", true, some ["admin", "epr_admin"]⟩,
    ⟨"POST", "/api/admissions", false, none⟩,
    ⟨"PUT", "/api/admissions/:id", true, some ["admin", "epr_admin"]⟩,
    ⟨"GET", "/api/departments", true, none⟩,
    ⟨"GET", "/api/users/:id/privileges", true, some ["admin", "epr_admin"]⟩,
    ⟨"POST", "/api/users/:id/privileges", true, some ["epr_admin"]⟩ ]

/-- The `POST /api/attendance` route (`routes.ts` lines 330-339). -/
def attendanceCreateRoute : Route :=
  ⟨"POST", "/api/attendance", true, some ["faculty", "admin", "epr_admin"]⟩

/-- The `POST /api/admissions` route (`routes.ts` lines 457-466), registered
with no middleware at all. -/
def admissionCreateRoute : Route := ⟨"POST", "/api/admissions", false, none⟩

/-- The `POST /api/users/:id/privileges` grant route (`routes.ts`
lines 514-531). -/
def grantRoute : Route := ⟨"POST", "/api/users/:id/privileges", true, some ["epr_admin"]⟩

/-- Result of dispatching a request through a route's middleware chain:
the HTTP status produced by the chain (200 standing for "the handler ran"),
whether the handler body — and hence its CRUD store operation — executed,
and the `req.user` value the handler saw. -/
structure RouteResult where
  status : Nat
  handlerRan : Bool
  user : Option TokenPayload
  deriving DecidableEq, Repr

/-- Dispatch of one request through a route's middleware chain as Express
runs it: `authenticateToken` first when installed, then `authorize` when
installed, and only if every middleware calls `next()` does the handler
(and its store operation) run. A route registered without
`authenticateToken` runs its handler directly with `req.user` unset. -/
def runRoute (mac : Nat → TokenPayload → Nat) (key now : Nat) (r : Route)
    (tok : Option Token) : RouteResult :=
  if r.requiresAuth then
    match authenticateToken mac key now tok with
    | AuthOutcome.reject st _ => ⟨st, false, none⟩
    | AuthOutcome.proceed p =>
        match r.roleAllow with
        | none => ⟨200, true, some p⟩
        | some roles =>
            if authorizeCheck roles (some p) then ⟨200, true, some p⟩
            else ⟨403, false, none⟩
  else ⟨200, true, none⟩

/-- Request body of the grant route: `permission`, `resource` and
`grantedBy` destructured from `req.body` (`routes.ts` line 517). -/
structure GrantBody where
  permission : String
  resource : String
  grantedBy : Nat
  deriving DecidableEq, Repr

/-- The full `POST /api/users/:id/privileges` request (`routes.ts`
lines 514-531) including its middleware chain: on any middleware rejection
the response is the middleware's status and the table is untouched;
otherwise the handler calls `grantPrivilege` with the URL's user id and the
body's permission, resource and grantedBy, and responds 201. -/
def postUserPrivileges (mac : Nat → TokenPayload → Nat) (key now : Nat)
    (tok : Option Token) (targetUserId : Nat) (body : GrantBody)
    (s : PrivState) : (Nat × PrivState) :=
  match authenticateToken mac key now tok with
  | AuthOutcome.reject st _ => (st, s)
  | AuthOutcome.proceed p =>
      if authorizeCheck ["epr_admin"] (some p) then
        let res := grantPrivilege s
          ⟨targetUserId, body.permission, body.resource, body.grantedBy⟩ now
        (201, res.2)
      else (403, s)

/-- Failure of the Audit/Grant Lifecycle Manager. -/
inductive GrantErr where
  | actorNotPermitted : GrantErr
  deriving DecidableEq, Repr

/-- Modelled from the spec: `revoke(actorIdentity, targetUserId, permission,
resource)` of the Audit/Grant Lifecycle Manager (section 4.5). No revoke
HTTP route exists in `routes.ts` (the client page calls a
`DELETE /api/privileges/:id` endpoint that is not registered), so the
lifecycle rule — fail with `ActorNotPermitted` unless the actor's role is
the highest-trust role `epr_admin`, else delegate to the store's
remove-by-exact-match — is taken from the specification and delegates to
`revokePrivilege` from `storage.ts`. -/
def lifecycleRevoke (actor : TokenPayload) (targetUserId : Nat) (p r : String)
    (s : PrivState) : Except GrantErr (Bool × PrivState) :=
  if actor.role = "epr_admin" then Except.ok (revokePrivilege s targetUserId p r)
  else Except.error GrantErr.actorNotPermitted

/-- One row of the `users` table (`schema.ts` lines 7-20). Timestamps are
naturals. -/
structure UserRec where
  id : Nat
  username : String
  email : String
  password : String
  firstName : String
  middleName : Option String
  lastName : String
  phoneNumber : Option String
  role : String
  isActive : Bool
  createdAt : Nat
  updatedAt : Nat
  deriving DecidableEq, Repr

/-- Parsed body accepted by `insertUserSchema` (`schema.ts` lines 316-320):
every `users` column except `id`, `createdAt`, `updatedAt`. -/
structure InsertUser where
  username : String
  email : String
  password : String
  firstName : String
  middleName : Option String
  lastName : String
  phoneNumber : Option String
  role : String
  isActive : Bool
  deriving DecidableEq, Repr

/-- Model of the external `bcrypt.hash(password, 10)` call in `storage.ts`:
an opaque injective transformation of the plaintext. -/
def bcryptHash (p : String) : String := "bcrypt$" ++ p

/-- State of the `users` table. -/
structure UsersState where
  rows : List UserRec
  nextId : Nat
  deriving DecidableEq, Repr

/-- `DatabaseStorage.createUser` (`storage.ts` lines 111-118): hashes the
password and inserts the row; `id` is the serial counter and
`createdAt`/`updatedAt` take the database default `now()`. -/
def createUser (s : UsersState) (ins : InsertUser) (now : Nat) :
    UserRec × UsersState :=
  let row : UserRec :=
    { id := s.nextId, username := ins.username, email := ins.email,
      password := bcryptHash ins.password, firstName := ins.firstName,
      middleName := ins.middleName, lastName := ins.lastName,
      phoneNumber := ins.phoneNumber, role := ins.role,
      isActive := ins.isActive, createdAt := now, updatedAt := now }
  (row, { rows := s.rows ++ [row], nextId := s.nextId + 1 })

/-- The shape of the JSON object the register and user-update routes
respond with: every `users` column except `password`, exactly the rest
pattern of `const \x7b password, ...userWithoutPassword \x7d = user` in
`routes.ts` lines 93 and 280. -/
structure UserResponse where
  id : Nat
  username : String
  email : String
  firstName : String
  middleName : Option String
  lastName : String
  phoneNumber : Option String
  role : String
  isActive : Bool
  createdAt : Nat
  updatedAt : Nat
  deriving DecidableEq, Repr

/-- The destructuring `const \x7b password, ...userWithoutPassword \x7d = user`:
drops the `password` field and keeps every other field of the row. -/
def userWithoutPassword (u : UserRec) : UserResponse :=
  { id := u.id, username := u.username, email := u.email,
    firstName := u.firstName, middleName := u.middleName,
    lastName := u.lastName, phoneNumber := u.phoneNumber, role := u.role,
    isActive := u.isActive, createdAt := u.createdAt, updatedAt := u.updatedAt }

/-- Outcome of the register or user-update route: an error response or a
success response carrying the JSON body sent to the client. -/
inductive UserResp where
  | failure : Nat → String → UserResp
  | success : Nat → UserResponse → UserResp
  deriving DecidableEq, Repr

/-- The `POST /api/auth/register` handler (`routes.ts` lines 77-100) on an
already-parsed body: reject 400 when the username or email already exists,
otherwise create the user and respond 201 with the row minus its password
field. -/
def registerUser (s : UsersState) (ins : InsertUser) (now : Nat) :
    UserResp × UsersState :=
  if s.rows.any (fun u => u.username = ins.username) then
    (UserResp.failure 400 "Username already exists", s)
  else if s.rows.any (fun u => u.email = ins.email) then
    (UserResp.failure 400 "Email already exists", s)
  else
    let res := createUser s ins now
    (UserResp.success 201 (userWithoutPassword res.1), res.2)

/-- A `Partial<InsertUser>` update body: each field optionally present. -/
structure UserPatch where
  username : Option String
  email : Option String
  password : Option String
  firstName : Option String
  middleName : Option (Option String)
  lastName : Option String
  phoneNumber : Option (Option String)
  role : Option String
  isActive : Option Bool
  deriving DecidableEq, Repr

/-- Application of an update object to a row as the drizzle `set` clause
does: fields present in the patch overwrite, absent fields are kept. -/
def applyPatch (u : UserRec) (p : UserPatch) (hashedPw : Option String)
    (now : Nat) : UserRec :=
  { u with
    username := p.username.getD u.username,
    email := p.email.getD u.email,
    password := hashedPw.getD u.password,
    firstName := p.firstName.getD u.firstName,
    middleName := p.middleName.getD u.middleName,
    lastName := p.lastName.getD u.lastName,
    phoneNumber := p.phoneNumber.getD u.phoneNumber,
    role := p.role.getD u.role,
    isActive := p.isActive.getD u.isActive,
    updatedAt := now }

/-- `DatabaseStorage.updateUser` (`storage.ts` lines 120-131): hash the
password when the update carries one, set the fields plus `updatedAt`, and
return the updated row when the id matched one. -/
def updateUser (s : UsersState) (id : Nat) (p : UserPatch) (now : Nat) :
    Option UserRec × UsersState :=
  let hashedPw := p.password.map bcryptHash
  match s.rows.find? (fun u => u.id = id) with
  | none => (none, s)
  | some u =>
      let u2 := applyPatch u p hashedPw now
      (some u2,
       { s with rows := s.rows.map (fun v => if v.id = id then u2 else v) })

/-- The `PUT /api/users/:id` handler (`routes.ts` lines 264-286): 404 when
no row matched, otherwise respond with the updated row minus its password
field. -/
def putUser (s : UsersState) (id : Nat) (p : UserPatch) (now : Nat) :
    UserResp × UsersState :=
  match updateUser s id p now with
  | (none, s2) => (UserResp.failure 404 "User not found", s2)
  | (some u, s2) => (UserResp.success 200 (userWithoutPassword u), s2)

/-- One row of the `students` table (`schema.ts` lines 31-46), restricted to
the scalar columns; the `cgpa` decimal and `suspensionHistory` jsonb
columns are carried opaquely as strings since no modelled operation
inspects them. -/
structure StudentRec where
  id : Nat
  userId : Nat
  studentId : String
  groupId : Option Nat
  departmentId : Option Nat
  year : Option Nat
  semester : Option Nat
  enrollmentDate : Nat
  status : String
  cgpa : Option String
  totalCredits : Option Nat
  suspensionHistory : String
  notes : Option String
  deriving DecidableEq, Repr

/-- Joint state of the `users` and `students` tables, the two tables
`deleteStudent` touches. -/
structure SchoolState where
  userRows : List UserRec
  studentRows : List StudentRec
  deriving DecidableEq, Repr

/-- `DatabaseStorage.getStudentById` (`storage.ts` lines 157-160): the first
row whose id matches, if any. -/
def getStudentById (s : SchoolState) (id : Nat) : Option StudentRec :=
  s.studentRows.find? (fun st => st.id = id)

/-- `DatabaseStorage.deleteStudent` (`storage.ts` lines 562-581): look the
student up; when absent, throw `Error("Student not found")` (modelled as
`Except.error`); otherwise delete the student rows with that id, then the
user rows with the student's `userId`, and return `true`. -/
def deleteStudent (s : SchoolState) (id : Nat) :
    Except String (Bool × SchoolState) :=
  match getStudentById s id with
  | none => Except.error "Student not found"
  | some st =>
      Except.ok (true,
        { userRows := s.userRows.filter (fun u => !(u.id = st.userId)),
          studentRows := s.studentRows.filter (fun x => !(x.id = id)) })

/-- The `DELETE /api/students/:id` handler body (`routes.ts` lines 288-306)
for a well-formed id: respond 200 on success; catch an error whose message
is "Student not found" as a 404, any other as a 500, leaving the state as
the failed call left it. -/
def deleteStudentRoute (s : SchoolState) (id : Nat) :
    (Nat × String) × SchoolState :=
  match deleteStudent s id with
  | Except.ok (_, s2) => ((200, "Student deleted successfully"), s2)
  | Except.error msg =>
      if msg = "Student not found" then ((404, "Student not found"), s)
      else ((500, "Internal server error"), s)

/-- A student identity, used as concrete data in examples. -/
def studentPayload : TokenPayload := ⟨42, "stud42", "student", 100⟩

/-- A faculty identity, used as concrete data in examples. -/
def facultyPayload : TokenPayload := ⟨7, "fac7", "faculty", 100⟩

/-- An epr_admin identity, used as concrete data in examples. -/
def eprPayload : TokenPayload := ⟨9, "root", "epr_admin", 100⟩

/-- A correctly signed token for `studentPayload` under key 0. -/
def studTok : Token := Token.signed studentPayload (macDemo 0 studentPayload)

/-- A correctly signed token for `facultyPayload` under key 0. -/
def facTok : Token := Token.signed facultyPayload (macDemo 0 facultyPayload)

/-- A correctly signed token for `eprPayload` under key 0. -/
def eprTok : Token := Token.signed eprPayload (macDemo 0 eprPayload)

/-- A privilege table holding exactly one grant: user 42 holds
`("attendance", "attendance")`. -/
def demoStore : PrivState := ⟨[⟨0, 42, "attendance", "attendance", 9, 5⟩], 1⟩

/-- An empty privilege table. -/
def emptyStore : PrivState := ⟨[], 0⟩

/-- A concrete grant request body whose `grantedBy` field (999) names
nobody involved in the request. -/
def demoBody : GrantBody := ⟨"grade", "students", 999⟩

/-- A concrete user row backing `demoStudent`. -/
def demoUser1 : UserRec :=
  ⟨1, "u1", "u1@cecos.edu", "bcrypt$pw1", "Amin", none, "Khan", none,
   "student", true, 0, 0⟩

/-- A concrete user row unrelated to `demoStudent`. -/
def demoUser2 : UserRec :=
  ⟨2, "u2", "u2@cecos.edu", "bcrypt$pw2", "Bushra", none, "Ali", none,
   "faculty", true, 0, 0⟩

/-- A concrete student row whose user row is `demoUser1`. -/
def demoStudent : StudentRec :=
  ⟨11, 1, "CCL-25-0001", none, none, some 1, some 1, 0, "active", none,
   some 0, "[]", none⟩

/-- A concrete joint state: two users, one student. -/
def demoSchool : SchoolState := ⟨[demoUser1, demoUser2], [demoStudent]⟩

/-- The property that a dispatched request passed token verification and,
when the route carries a role whitelist, the role check: there is a token
that verifies to a payload whose role the whitelist admits. -/
def passedAuth (mac : Nat → TokenPayload → Nat) (key now : Nat) (r : Route)
    (tok : Option Token) : Prop :=
  ∃ t p, tok = some t ∧ jwtVerify mac key now t = Except.ok p ∧
    ∀ roles, r.roleAllow = some roles → roles.contains p.role = true

/-- Every route of the table that carries a role whitelist is also
registered with `authenticateToken`. -/
theorem routesTable_whitelist_requiresAuth :
    ∀ r ∈ routesTable, r.roleAllow ≠ none → r.requiresAuth = true := by
  decide

/-- C1, counterexample: the claim that the decision is allow iff a matching
Grant exists fails on the code. User 42 with role `student` requests
`POST /api/attendance` (whose whitelist gives the student role no
coverage); the Privilege Store holds the exact Grant
`(42, "attendance", "attendance")`, yet the middleware chain denies and
the handler never runs: the grant's existence does not flip the decision
to allow. -/
theorem C1_counterexample :
    grantExists demoStore 42 "attendance" "attendance" = true ∧
    studentPayload.id = 42 ∧
    (runRoute macDemo 0 50 attendanceCreateRoute (some studTok)).handlerRan
      = false ∧
    (runRoute macDemo 0 50 attendanceCreateRoute (some studTok)).status
      = 403 := by
  decide

/-- C1, amended: for an identity whose role is not in a table route's
whitelist (no role-policy coverage), the decision is deny regardless of the
Privilege Store: even when the store holds a Grant with the identity's
userId and the exact requested (permission, resource) pair, the handler
does not run, so adding such a grant never flips the decision to allow. -/
theorem C1_grants_never_allow (mac : Nat → TokenPayload → Nat)
    (key now : Nat) (route : Route) (roles : List String) (u : TokenPayload)
    (sig : Nat) (s : PrivState) (p r : String)
    (hroute : route ∈ routesTable) (hwl : route.roleAllow = some roles)
    (hver : jwtVerify mac key now (Token.signed u sig) = Except.ok u)
    (hrole : roles.contains u.role = false)
    (hgrant : grantExists s u.id p r = true) :
    (runRoute mac key now route (some (Token.signed u sig))).handlerRan
      = false ∧
    (runRoute mac key now route (some (Token.signed u sig))).status = 403 := by
  have hauth : route.requiresAuth = true :=
    routesTable_whitelist_requiresAuth route hroute (by simp [hwl])
  have hmem : u.role ∉ roles := by simpa using hrole
  simp [runRoute, hauth, authenticateToken, hver, hwl, authorizeCheck, hmem]

/-- Witness for `C1_grants_never_allow` at the counterexample instance. -/
theorem C1_grants_never_allow_witness :
    (runRoute macDemo 0 50 attendanceCreateRoute (some studTok)).handlerRan
      = false ∧
    (runRoute macDemo 0 50 attendanceCreateRoute (some studTok)).status
      = 403 := by
  exact C1_grants_never_allow macDemo 0 50 attendanceCreateRoute
    ["faculty", "admin", "epr_admin"] studentPayload
    (macDemo 0 studentPayload) demoStore "attendance" "attendance"
    (by decide) (by decide) rfl (by decide) (by decide)

/-- C2, counterexample: `POST /api/admissions` is registered with no
middleware at all, so a request with no token reaches the handler and its
`storage.createAdmission` write without any token verification or
authorization step. Moreover `GET /api/dashboard/stats` carries no
`authorize` middleware, so any verified identity (here a student) reaches
its store read with no per-action authorization decision. -/
theorem C2_counterexample :
    admissionCreateRoute ∈ routesTable ∧
    admissionCreateRoute.requiresAuth = false ∧
    (runRoute macDemo 0 50 admissionCreateRoute none).handlerRan = true ∧
    (⟨"GET", "/api/dashboard/stats", true, none⟩ : Route) ∈ routesTable ∧
    (runRoute macDemo 0 50 ⟨"GET", "/api/dashboard/stats", true, none⟩
      (some studTok)).handlerRan = true := by
  decide

/-- C2, amended: for every route of the table that is registered with
`authenticateToken`, the handler (and hence its store operation) runs only
when token verification succeeded and, when the route carries a role
whitelist, the decoded role is whitelisted; a request failing either step
never reaches the store. The routes exempt from this — registered without
`authenticateToken` — are exactly `POST /api/auth/login`,
`POST /api/auth/register` and `POST /api/admissions`. -/
theorem C2_guarded_routes (mac : Nat → TokenPayload → Nat) (key now : Nat)
    (r : Route) (tok : Option Token) (hr : r ∈ routesTable)
    (hauth : r.requiresAuth = true)
    (hran : (runRoute mac key now r tok).handlerRan = true) :
    passedAuth mac key now r tok ∧
    routesTable.filter (fun x => !x.requiresAuth) =
      [⟨"POST", "/api/auth/login", false, none⟩,
       ⟨"POST", "/api/auth/register", false, none⟩,
       ⟨"POST", "/api/admissions", false, none⟩] := by
  refine ⟨?_, by decide⟩
  unfold runRoute at hran
  rw [hauth] at hran
  simp only [if_true] at hran
  cases tok with
  | none => simp [authenticateToken] at hran
  | some t =>
      cases hv : jwtVerify mac key now t with
      | error e => simp [authenticateToken, hv] at hran
      | ok p =>
          refine ⟨t, p, rfl, hv, ?_⟩
          intro roles hroles
          simp [authenticateToken, hv, hroles, authorizeCheck] at hran
          by_cases hc : p.role ∈ roles
          · simpa using hc
          · simp [hc] at hran

/-- Witness for `C2_guarded_routes`: a valid faculty token on
`POST /api/attendance` reaches the handler, and the theorem yields that it
passed verification and the role check. -/
theorem C2_guarded_routes_witness :
    passedAuth macDemo 0 50 attendanceCreateRoute (some facTok) ∧
    routesTable.filter (fun x => !x.requiresAuth) =
      [⟨"POST", "/api/auth/login", false, none⟩,
       ⟨"POST", "/api/auth/register", false, none⟩,
       ⟨"POST", "/api/admissions", false, none⟩] := by
  exact C2_guarded_routes macDemo 0 50 attendanceCreateRoute (some facTok)
    (by decide) (by decide) (by decide)

/-- C3: an authenticated actor whose role is not `epr_admin` cannot change
the Grant rows. A grant attempt through `POST /api/users/:id/privileges`
is answered 403 (Insufficient permissions) with the privilege table
unchanged; a revoke attempt through the lifecycle manager fails with
`ActorNotPermitted` before any store call. Conversely a grant that
succeeds (201) or a revoke that reaches the store implies the actor's role
is `epr_admin`. -/
theorem C3_only_epr_admin_grants (mac : Nat → TokenPayload → Nat)
    (key now : Nat) (tok : Option Token) (uid : Nat) (body : GrantBody)
    (s : PrivState) (actor : TokenPayload)
    (hver : authenticateToken mac key now tok = AuthOutcome.proceed actor) :
    (actor.role ≠ "epr_admin" →
      postUserPrivileges mac key now tok uid body s = (403, s) ∧
      ∀ p r t, lifecycleRevoke actor t p r s =
        Except.error GrantErr.actorNotPermitted) ∧
    ((postUserPrivileges mac key now tok uid body s).1 = 201 →
      actor.role = "epr_admin") ∧
    (∀ p r t res, lifecycleRevoke actor t p r s = Except.ok res →
      actor.role = "epr_admin") := by
  by_cases hrole : actor.role = "epr_admin"
  · refine ⟨fun hc => absurd hrole hc, fun _ => hrole, fun _ _ _ _ _ => hrole⟩
  · refine ⟨fun _ => ⟨?_, ?_⟩, ?_, ?_⟩
    · simp [postUserPrivileges, hver, authorizeCheck, hrole]
    · intro p r t
      simp [lifecycleRevoke, hrole]
    · intro h201
      simp [postUserPrivileges, hver, authorizeCheck, hrole] at h201
    · intro p r t res hok
      simp [lifecycleRevoke, hrole] at hok

/-- Witness for `C3_only_epr_admin_grants`: a faculty actor's grant attempt
returns 403 and leaves the store unchanged, and their revoke attempt is
`ActorNotPermitted`. -/
theorem C3_only_epr_admin_grants_witness :
    postUserPrivileges macDemo 0 50 (some facTok) 42 demoBody demoStore =
      (403, demoStore) ∧
    lifecycleRevoke facultyPayload 42 "grade" "students" demoStore =
      Except.error GrantErr.actorNotPermitted := by
  have h := C3_only_epr_admin_grants macDemo 0 50 (some facTok) 42 demoBody
    demoStore facultyPayload rfl
  exact ⟨(h.1 (by decide)).1, (h.1 (by decide)).2 "grade" "students" 42⟩

/-- C4: the code stores the request body's `grantedBy`, not the
authenticated actor's id. The epr_admin actor with id 9 submits a grant
body carrying `grantedBy = 999`; the persisted row records `grantedBy =
999`, while the claim (and the spec) require it to equal the actor id 9.
`grantedAt` does receive the time of the grant (the column default). -/
theorem C4_grantedBy_from_body :
    (postUserPrivileges macDemo 0 50 (some eprTok) 42 demoBody emptyStore).1
      = 201 ∧
    (postUserPrivileges macDemo 0 50 (some eprTok) 42 demoBody
        emptyStore).2.rows =
      [⟨0, 42, "grade", "students", 999, 50⟩] ∧
    eprPayload.id = 9 ∧ (999 : Nat) ≠ 9 := by
  decide

/-- C5: for every route of the table carrying a role whitelist (the code's
role-policy entries), an identity whose role is whitelisted and who holds
zero explicit grants is authorized: with a verified token the handler runs,
under that identity, with no Grant row consulted or required. -/
theorem C5_role_policy_allows (mac : Nat → TokenPayload → Nat)
    (key now : Nat) (route : Route) (roles : List String) (u : TokenPayload)
    (sig : Nat) (s : PrivState)
    (hroute : route ∈ routesTable) (hwl : route.roleAllow = some roles)
    (hver : jwtVerify mac key now (Token.signed u sig) = Except.ok u)
    (hrole : roles.contains u.role = true)
    (hnogrants : getUserPrivileges s u.id = []) :
    (runRoute mac key now route (some (Token.signed u sig))).handlerRan
      = true ∧
    (runRoute mac key now route (some (Token.signed u sig))).user
      = some u := by
  have hauth : route.requiresAuth = true :=
    routesTable_whitelist_requiresAuth route hroute (by simp [hwl])
  have hmem : u.role ∈ roles := by simpa using hrole
  simp [runRoute, hauth, authenticateToken, hver, hwl, authorizeCheck, hmem]

/-- Witness for `C5_role_policy_allows`: a faculty identity with an empty
privilege table is allowed `POST /api/attendance`. -/
theorem C5_role_policy_allows_witness :
    (runRoute macDemo 0 50 attendanceCreateRoute (some facTok)).handlerRan
      = true ∧
    (runRoute macDemo 0 50 attendanceCreateRoute (some facTok)).user
      = some facultyPayload := by
  exact C5_role_policy_allows macDemo 0 50 attendanceCreateRoute
    ["faculty", "admin", "epr_admin"] facultyPayload
    (macDemo 0 facultyPayload) emptyStore
    (by decide) (by decide) rfl (by decide) (by decide)

/-- C6: every verification failure — malformed token, invalid signature, or
embedded expiry in the past — makes `authenticateToken` reject the request,
and all failure kinds produce the same external behavior: status 403 with
message "Invalid or expired token". A token whose expiry has passed is
rejected whether or not its signature is valid. -/
theorem C6_reject_bad_tokens (mac : Nat → TokenPayload → Nat)
    (key now : Nat) :
    (∀ t e, jwtVerify mac key now t = Except.error e →
      authenticateToken mac key now (some t) =
        AuthOutcome.reject 403 "Invalid or expired token") ∧
    (jwtVerify mac key now Token.malformed =
      Except.error VerifyError.tokenMalformed) ∧
    (∀ p sig, sig ≠ mac key p →
      jwtVerify mac key now (Token.signed p sig) =
        Except.error VerifyError.tokenSignatureInvalid) ∧
    (∀ p sig, p.exp ≤ now →
      authenticateToken mac key now (some (Token.signed p sig)) =
        AuthOutcome.reject 403 "Invalid or expired token") := by
  refine ⟨fun t e hv => by simp [authenticateToken, hv], rfl,
    fun p sig hs => by simp [jwtVerify, hs], fun p sig hexp => ?_⟩
  by_cases hs : sig = mac key p
  · simp [authenticateToken, jwtVerify, hs, hexp]
  · simp [authenticateToken, jwtVerify, hs]

/-- Witness for `C6_reject_bad_tokens`: an expired token with a valid
signature, a token with an invalid signature, and a malformed token are all
rejected with the same 403 response. -/
theorem C6_reject_bad_tokens_witness :
    authenticateToken macDemo 0 200
        (some (Token.signed facultyPayload (macDemo 0 facultyPayload))) =
      AuthOutcome.reject 403 "Invalid or expired token" ∧
    jwtVerify macDemo 0 50 (Token.signed facultyPayload 1234) =
      Except.error VerifyError.tokenSignatureInvalid ∧
    authenticateToken macDemo 0 50 (some Token.malformed) =
      AuthOutcome.reject 403 "Invalid or expired token" := by
  have h := C6_reject_bad_tokens macDemo 0 50
  have h200 := C6_reject_bad_tokens macDemo 0 200
  refine ⟨h200.2.2.2 facultyPayload (macDemo 0 facultyPayload) (by decide),
    h.2.2.1 facultyPayload 1234 (by decide),
    h.1 Token.malformed VerifyError.tokenMalformed h.2.1⟩

/-- C7: revoking a triple with no matching Grant row returns `false`, is a
normal result rather than an error, and leaves the table unchanged; every
row not matching the triple survives any revoke; and when at least one row
matches, the revoke returns `true`. -/
theorem C7_revoke_exact (s : PrivState) (uid : Nat) (p r : String) :
    ((∀ g ∈ s.rows, privMatches uid p r g = false) →
      (revokePrivilege s uid p r).1 = false ∧
      (revokePrivilege s uid p r).2 = s) ∧
    ((∃ g ∈ s.rows, privMatches uid p r g = true) →
      (revokePrivilege s uid p r).1 = true) ∧
    (∀ g ∈ s.rows, privMatches uid p r g = false →
      g ∈ (revokePrivilege s uid p r).2.rows) := by
  refine ⟨fun hnone => ⟨?_, ?_⟩, fun hsome => ?_, fun g hg hm => ?_⟩
  · have hfil : s.rows.filter (fun g => privMatches uid p r g) = [] := by
      rw [List.filter_eq_nil_iff]
      intro g hg
      simp [hnone g hg]
    simp [revokePrivilege, hfil]
  · have hfil : s.rows.filter (fun g => !(privMatches uid p r g)) = s.rows := by
      rw [List.filter_eq_self]
      intro g hg
      simp [hnone g hg]
    cases s with
    | mk rows nextId => simp_all [revokePrivilege]
  · obtain ⟨g, hg, hm⟩ := hsome
    have hmem : g ∈ s.rows.filter (fun g => privMatches uid p r g) :=
      List.mem_filter.mpr ⟨hg, hm⟩
    have hpos : 0 < (s.rows.filter (fun g => privMatches uid p r g)).length :=
      List.length_pos.mpr (List.ne_nil_of_mem hmem)
    simp [revokePrivilege, hpos]
  · exact List.mem_filter.mpr ⟨hg, by simp [hm]⟩

/-- Witness for `C7_revoke_exact`: revoking the never-granted triple
`(1, "grade", "students")` from `demoStore` returns `false` and leaves the
store unchanged, and the store's one row survives. -/
theorem C7_revoke_exact_witness :
    (revokePrivilege demoStore 1 "grade" "students").1 = false ∧
    (revokePrivilege demoStore 1 "grade" "students").2 = demoStore ∧
    (⟨0, 42, "attendance", "attendance", 9, 5⟩ : UserPrivilege) ∈
      (revokePrivilege demoStore 1 "grade" "students").2.rows := by
  have h := C7_revoke_exact demoStore 1 "grade" "students"
  refine ⟨(h.1 (by decide)).1, (h.1 (by decide)).2,
    h.2.2 ⟨0, 42, "attendance", "attendance", 9, 5⟩ (by decide) (by decide)⟩

/-- C8: `grantPrivilege` does not deduplicate — inserting the same
`(userId, permission, resource)` triple twice produces two rows with
distinct ids, both present and both matching the triple — and a single
`revokePrivilege` on the triple then removes every matching row, so no row
with the triple remains. -/
theorem C8_duplicate_grants (s : PrivState) (ins : InsertUserPrivilege)
    (n1 n2 : Nat) :
    (grantPrivilege s ins n1).1.id ≠
      (grantPrivilege (grantPrivilege s ins n1).2 ins n2).1.id ∧
    (grantPrivilege s ins n1).1 ∈
      (grantPrivilege (grantPrivilege s ins n1).2 ins n2).2.rows ∧
    (grantPrivilege (grantPrivilege s ins n1).2 ins n2).1 ∈
      (grantPrivilege (grantPrivilege s ins n1).2 ins n2).2.rows ∧
    privMatches ins.userId ins.permission ins.resource
      (grantPrivilege s ins n1).1 = true ∧
    privMatches ins.userId ins.permission ins.resource
      (grantPrivilege (grantPrivilege s ins n1).2 ins n2).1 = true ∧
    (∀ g ∈ (revokePrivilege
        (grantPrivilege (grantPrivilege s ins n1).2 ins n2).2
        ins.userId ins.permission ins.resource).2.rows,
      privMatches ins.userId ins.permission ins.resource g = false) := by
  refine ⟨by simp [grantPrivilege], by simp [grantPrivilege],
    by simp [grantPrivilege], by simp [grantPrivilege, privMatches],
    by simp [grantPrivilege, privMatches], fun g hgmem => ?_⟩
  have hmem := List.mem_filter.mp hgmem
  simpa using hmem.2

/-- Witness for `C8_duplicate_grants`: granting `(42, "grade", "students")`
twice into the empty store and revoking once. -/
theorem C8_duplicate_grants_witness :
    (grantPrivilege emptyStore ⟨42, "grade", "students", 9⟩ 50).1.id ≠
      (grantPrivilege (grantPrivilege emptyStore
        ⟨42, "grade", "students", 9⟩ 50).2
        ⟨42, "grade", "students", 9⟩ 60).1.id ∧
    (∀ g ∈ (revokePrivilege (grantPrivilege (grantPrivilege emptyStore
          ⟨42, "grade", "students", 9⟩ 50).2
          ⟨42, "grade", "students", 9⟩ 60).2 42 "grade" "students").2.rows,
      privMatches 42 "grade" "students" g = false) := by
  have h := C8_duplicate_grants emptyStore ⟨42, "grade", "students", 9⟩ 50 60
  exact ⟨h.1, h.2.2.2.2.2⟩

/-- C9: the stored password hash never flows to a caller. The register and
user-update responses are identical for any two request passwords (so no
function of the password, hashed or plain, appears in them), stripping the
password from a row is insensitive to the password value, and yet the
stored row does carry the (hashed) password. -/
theorem C9_password_not_in_responses (s : UsersState) (ins : InsertUser)
    (pw1 pw2 : String) (now id : Nat) (patch : UserPatch) :
    (registerUser s { ins with password := pw1 } now).1 =
      (registerUser s { ins with password := pw2 } now).1 ∧
    (∀ (u : UserRec) (pw : String),
      userWithoutPassword { u with password := pw } =
        userWithoutPassword u) ∧
    (putUser s id { patch with password := some pw1 } now).1 =
      (putUser s id { patch with password := some pw2 } now).1 ∧
    (createUser s { ins with password := pw1 } now).1.password =
      bcryptHash pw1 := by
  refine ⟨?_, fun u pw => rfl, ?_, rfl⟩
  · simp only [registerUser, createUser, userWithoutPassword]
    split_ifs <;> rfl
  · simp only [putUser, updateUser, applyPatch, userWithoutPassword]
    cases hf : s.rows.find? (fun u => u.id = id) <;> simp [hf]

/-- C10: deleting an existing student removes the student row and the user
row the student's `userId` references, keeps all other rows, returns
`true`, and the route answers 200; deleting a missing student throws
"Student not found", changes no student or user row, and the route answers
404 with the state unchanged. -/
theorem C10_deleteStudent (s : SchoolState) (id : Nat) :
    (∀ st, getStudentById s id = some st →
      ∃ s2, deleteStudent s id = Except.ok (true, s2) ∧
        (∀ x ∈ s2.studentRows, x.id ≠ id) ∧
        (∀ u ∈ s2.userRows, u.id ≠ st.userId) ∧
        (∀ x ∈ s.studentRows, x.id ≠ id → x ∈ s2.studentRows) ∧
        (∀ u ∈ s.userRows, u.id ≠ st.userId → u ∈ s2.userRows) ∧
        deleteStudentRoute s id =
          ((200, "Student deleted successfully"), s2)) ∧
    (getStudentById s id = none →
      deleteStudent s id = Except.error "Student not found" ∧
      deleteStudentRoute s id = ((404, "Student not found"), s)) := by
  constructor
  · intro st hst
    refine ⟨⟨s.userRows.filter (fun u => !(u.id = st.userId)),
      s.studentRows.filter (fun x => !(x.id = id))⟩,
      by simp [deleteStudent, hst], ?_, ?_, ?_, ?_,
      by simp [deleteStudentRoute, deleteStudent, hst]⟩
    · intro x hx
      have := List.mem_filter.mp hx
      simpa using this.2
    · intro u hu
      have := List.mem_filter.mp hu
      simpa using this.2
    · intro x hx hne
      exact List.mem_filter.mpr ⟨hx, by simpa using hne⟩
    · intro u hu hne
      exact List.mem_filter.mpr ⟨hu, by simpa using hne⟩
  · intro hnone
    exact ⟨by simp [deleteStudent, hnone],
      by simp [deleteStudentRoute, deleteStudent, hnone]⟩

/-- Witness for `C10_deleteStudent`: deleting student 11 of `demoSchool`
succeeds with a 200 response, and deleting the absent student 99 throws
"Student not found", which the route reports as a 404 on the unchanged
state. -/
theorem C10_deleteStudent_witness :
    (deleteStudentRoute demoSchool 11).1 =
      (200, "Student deleted successfully") ∧
    deleteStudent demoSchool 99 = Except.error "Student not found" ∧
    deleteStudentRoute demoSchool 99 =
      ((404, "Student not found"), demoSchool) := by
  obtain ⟨s2, _, _, _, _, _, hroute⟩ :=
    (C10_deleteStudent demoSchool 11).1 demoStudent (by decide)
  have h99 := (C10_deleteStudent demoSchool 99).2 (by decide)
  exact ⟨by rw [hroute], h99.1, h99.2⟩

end Cecos
